import Mathlib

/-!
Verification development for the ca-switch configuration reference-resolution
and multi-format synchronization engine.

The Rust data model is embedded shallowly:
`serde_json::Value` becomes the inductive `Json`; the `HashMap` / JSON-object
maps become association lists (`List (String × _)`) with first-match lookup,
replace-on-insert, and remove operations mirroring the map API used by the
source; fallible operations (`Result<_, String>`) become `Except String _`.
Timestamps produced by `chrono::Utc::now()` are threaded through the mutating
operations as explicit `now : String` arguments.
-/

namespace CaSwitch

/-- Shallow embedding of `serde_json::Value`. -/
inductive Json where
  | null : Json
  | bool (b : Bool) : Json
  | num (n : Int) : Json
  | str (s : String) : Json
  | arr (elems : List Json) : Json
  | obj (fields : List (String × Json)) : Json
deriving Repr

/-- First-match lookup in a JSON object / map, embedding `Map::get`. -/
def getKV {α : Type} : List (String × α) → String → Option α
  | [], _ => none
  | (k, v) :: rest, key => if k = key then some v else getKV rest key

/-- Remove the entry with the given key, embedding `Map::remove`
(maps hold each key at most once, so removing all occurrences agrees). -/
def removeKV {α : Type} : List (String × α) → String → List (String × α)
  | [], _ => []
  | (a, b) :: rest, key =>
    if a = key then removeKV rest key else (a, b) :: removeKV rest key

/-- Remove a list of keys in order, embedding a sequence of `Map::remove` calls. -/
def removeKeys {α : Type} (l : List (String × α)) (keys : List String) : List (String × α) :=
  keys.foldl (fun acc k => removeKV acc k) l

/-- Overwrite the value stored at an existing key, leaving the rest untouched. -/
def setKV {α : Type} : List (String × α) → String → α → List (String × α)
  | [], _, _ => []
  | (a, b) :: rest, key, v =>
    if a = key then (key, v) :: setKV rest key v else (a, b) :: setKV rest key v

/-- Embedding of `Map::insert`: overwrite when the key is present,
append a fresh entry otherwise. -/
def putKV {α : Type} (l : List (String × α)) (key : String) (v : α) : List (String × α) :=
  if (getKV l key).isSome then setKV l key v else l ++ [(key, v)]

/-- Number of entries carrying the given key. -/
def countKV {α : Type} : List (String × α) → String → Nat
  | [], _ => 0
  | (a, _) :: rest, key => (if a = key then 1 else 0) + countKV rest key

theorem getKV_removeKV_self {α : Type} (l : List (String × α)) (k : String) :
    getKV (removeKV l k) k = none := by
  induction l with
  | nil => rfl
  | cons p rest ih =>
    obtain ⟨a, b⟩ := p
    by_cases h : a = k
    · simpa [removeKV, h] using ih
    · simpa [removeKV, getKV, h] using ih

theorem getKV_removeKV_ne {α : Type} (l : List (String × α)) (k k' : String) (h : k' ≠ k) :
    getKV (removeKV l k) k' = getKV l k' := by
  induction l with
  | nil => rfl
  | cons p rest ih =>
    obtain ⟨a, b⟩ := p
    by_cases hp : a = k
    · have hp' : ¬ a = k' := fun hc => h (hc ▸ hp)
      have hq : ¬ k = k' := fun hc => h hc.symm
      simp [removeKV, getKV, hp, hp', hq, ih]
    · by_cases hc : a = k'
      · simp [removeKV, getKV, hp, hc, h, ih]
      · simp [removeKV, getKV, hp, hc, ih]

theorem getKV_removeKeys_not_mem {α : Type} (l : List (String × α)) (keys : List String)
    (k : String) (h : k ∉ keys) : getKV (removeKeys l keys) k = getKV l k := by
  induction keys generalizing l with
  | nil => rfl
  | cons k0 rest ih =>
    have h1 : k ∉ rest := fun hc => h (List.mem_cons_of_mem _ hc)
    have h2 : k ≠ k0 := fun hc => h (hc ▸ List.mem_cons_self _ _)
    calc getKV (removeKeys (removeKV l k0) rest) k
        = getKV (removeKV l k0) k := ih _ h1
      _ = getKV l k := getKV_removeKV_ne _ _ _ h2

theorem getKV_removeKeys_mem {α : Type} (l : List (String × α)) (keys : List String)
    (k : String) (h : k ∈ keys) : getKV (removeKeys l keys) k = none := by
  induction keys generalizing l with
  | nil => cases h
  | cons k0 rest ih =>
    by_cases hr : k ∈ rest
    · exact ih _ hr
    · rcases List.mem_cons.mp h with h0 | h0
      · subst h0
        calc getKV (removeKeys (removeKV l k) rest) k
            = getKV (removeKV l k) k := getKV_removeKeys_not_mem _ _ _ hr
          _ = none := getKV_removeKV_self _ _
      · exact absurd h0 hr

theorem getKV_setKV_self {α : Type} (l : List (String × α)) (k : String) (v : α)
    (h : (getKV l k).isSome) : getKV (setKV l k v) k = some v := by
  induction l with
  | nil => simp [getKV] at h
  | cons p rest ih =>
    obtain ⟨a, b⟩ := p
    by_cases hp : a = k
    · simp [setKV, getKV, hp]
    · simp only [getKV, if_neg hp] at h
      simpa [setKV, getKV, hp] using ih h

theorem getKV_setKV_ne {α : Type} (l : List (String × α)) (k k' : String) (v : α)
    (h : k' ≠ k) : getKV (setKV l k v) k' = getKV l k' := by
  induction l with
  | nil => rfl
  | cons p rest ih =>
    obtain ⟨a, b⟩ := p
    by_cases hp : a = k
    · have hne : ¬ k = k' := fun hc => h hc.symm
      have hp' : ¬ a = k' := fun hc => h (hc ▸ hp)
      simp [setKV, getKV, hp, hne, hp', ih]
    · by_cases hc : a = k'
      · simp [setKV, getKV, hp, hc, h, ih]
      · simp [setKV, getKV, hp, hc, ih]

theorem getKV_append_single_ne {α : Type} (l : List (String × α)) (k k' : String) (v : α)
    (h : k' ≠ k) : getKV (l ++ [(k, v)]) k' = getKV l k' := by
  induction l with
  | nil =>
    have hq : ¬ k = k' := fun hc => h hc.symm
    simp [getKV, hq]
  | cons p rest ih =>
    obtain ⟨a, b⟩ := p
    by_cases hc : a = k'
    · simp [getKV, hc]
    · simp [getKV, hc, ih]

theorem getKV_putKV_self {α : Type} (l : List (String × α)) (k : String) (v : α) :
    getKV (putKV l k v) k = some v := by
  unfold putKV
  by_cases h : (getKV l k).isSome
  · simp [h, getKV_setKV_self l k v h]
  · simp only [h, if_false, Bool.false_eq_true]
    induction l with
    | nil => simp [getKV]
    | cons p rest ih =>
      obtain ⟨a, b⟩ := p
      by_cases hp : a = k
      · simp [getKV, hp] at h
      · simp only [getKV, if_neg hp] at h
        simpa [getKV, hp] using ih h

theorem getKV_putKV_ne {α : Type} (l : List (String × α)) (k k' : String) (v : α)
    (h : k' ≠ k) : getKV (putKV l k v) k' = getKV l k' := by
  unfold putKV
  by_cases hs : (getKV l k).isSome
  · simp [hs, getKV_setKV_ne l k k' v h]
  · simp [hs, getKV_append_single_ne l k k' v h]

/-- Site metadata, embedding `SiteMetadata` from `models.rs`. -/
structure SiteMetadata where
  url : String
  description : Option String
  created_at : String
  updated_at : String
deriving Repr

/-- Vertex AI sub-record, embedding `VertexConfig` from `models.rs`. -/
structure VertexConfig where
  enabled : Bool
  project_id : Option String
  base_url : Option String
  skip_auth : Bool
deriving Repr

/-- Default `VertexConfig`, embedding the `Default` derive (`bool` false, options `None`). -/
def VertexConfig.default : VertexConfig :=
  { enabled := false, project_id := none, base_url := none, skip_auth := false }

/-- Claude per-site settings, embedding `ClaudeSiteConfig` from `models.rs`. -/
structure ClaudeSiteConfig where
  base_url : Option String
  model : Option String
  vertex : VertexConfig
deriving Repr

/-- Default `ClaudeSiteConfig`, embedding `ClaudeSiteConfig::default`. -/
def ClaudeSiteConfig.default : ClaudeSiteConfig :=
  { base_url := none, model := none, vertex := VertexConfig.default }

/-- Claude site record, embedding `ClaudeSite`; the `tokens` map becomes
an association list. -/
structure ClaudeSite where
  metadata : SiteMetadata
  tokens : List (String × String)
  config : ClaudeSiteConfig
deriving Repr

/-- Claude credential store, embedding `ClaudeConfig` (the `claude.json` document). -/
structure ClaudeConfig where
  version : String
  sites : List (String × ClaudeSite)
deriving Repr

/-- Embedding of `ClaudeConfig::new`: version 3.0.0, no sites. -/
def ClaudeConfig.new : ClaudeConfig :=
  { version := "3.0.0", sites := [] }

/-- Embedding of `ClaudeSite::new` with the creation timestamp made explicit. -/
def ClaudeSite.new (url : String) (description : Option String) (now : String) : ClaudeSite :=
  { metadata := { url := url, description := description, created_at := now, updated_at := now }
    tokens := []
    config := ClaudeSiteConfig.default }

/-- Embedding of `ClaudeSite::add_token` (insert, then bump `updated_at`). -/
def ClaudeSite.addToken (s : ClaudeSite) (token_name token now : String) : ClaudeSite :=
  { s with
    tokens := putKV s.tokens token_name token
    metadata := { s.metadata with updated_at := now } }

/-- Embedding of `ClaudeSite::remove_token`: remove the entry and bump
`updated_at` only when something was removed. -/
def ClaudeSite.removeToken (s : ClaudeSite) (token_name now : String) : ClaudeSite :=
  if (getKV s.tokens token_name).isSome then
    { s with
      tokens := removeKV s.tokens token_name
      metadata := { s.metadata with updated_at := now } }
  else s

/-- Claude active reference, embedding `ClaudeActiveReference` from the
global `config.json`. -/
structure ClaudeActiveReference where
  site : String
  token_name : String
deriving Repr

/-- Resolved Claude runtime configuration, embedding `ClaudeActiveConfig`. -/
structure ClaudeActiveConfig where
  site : String
  site_url : String
  site_description : Option String
  token_name : String
  token : String
  base_url : Option String
  model : Option String
  vertex : VertexConfig
deriving Repr

/-- Error message of `ConfigManager` when a referenced site is absent,
embedding the Chinese `format!` string (apostrophes written as \x27). -/
def siteNotFoundMsg (site : String) : String :=
  "站点 \x27" ++ site ++ "\x27 不存在"

/-- Error message of `ClaudeActiveConfig::from_reference` for a missing token. -/
def tokenNotFoundMsg (token_name site : String) : String :=
  "Token \x27" ++ token_name ++ "\x27 not found in site \x27" ++ site ++ "\x27"

/-- Error message of `switch_claude_config` for a missing token during validation. -/
def tokenMissingInSiteMsg (token_name site : String) : String :=
  "Token \x27" ++ token_name ++ "\x27 不存在于站点 \x27" ++ site ++ "\x27"

/-- Embedding of `ClaudeActiveConfig::from_reference`: dereference the cited
token and copy the site settings verbatim. -/
def ClaudeActiveConfig.from_reference (reference : ClaudeActiveReference)
    (site : ClaudeSite) : Except String ClaudeActiveConfig :=
  match getKV site.tokens reference.token_name with
  | none => .error (tokenNotFoundMsg reference.token_name reference.site)
  | some token =>
    .ok { site := reference.site
          site_url := site.metadata.url
          site_description := site.metadata.description
          token_name := reference.token_name
          token := token
          base_url := site.config.base_url
          model := site.config.model
          vertex := site.config.vertex }

/-- Resolution of a stored Claude reference against the credential store,
embedding the body of `ConfigManager::get_active_claude_config` after the
reference has been found set: site lookup, then `from_reference`. -/
def resolveClaude (reference : ClaudeActiveReference) (store : ClaudeConfig) :
    Except String ClaudeActiveConfig :=
  match getKV store.sites reference.site with
  | none => .error (siteNotFoundMsg reference.site)
  | some site => ClaudeActiveConfig.from_reference reference site

mutual

/-- Fold of the source fields into the target object, embedding the
`for (key, value) in source_obj` loop of `ClaudeConfigManager::deep_merge`. -/
def mergeFields : List (String × Json) → List (String × Json) → List (String × Json)
  | t, [] => t
  | t, (k, v) :: rest => mergeFields (mergeField t k v) rest
termination_by _ s => sizeOf s

/-- One iteration of the `deep_merge` loop: recurse when both sides hold an
object under the key, overwrite otherwise, insert when the key is fresh. -/
def mergeField (t : List (String × Json)) (k : String) (v : Json) : List (String × Json) :=
  match getKV t k with
  | some tv =>
    match tv, v with
    | Json.obj a, Json.obj b => setKV t k (Json.obj (mergeFields a b))
    | _, _ => setKV t k v
  | none => t ++ [(k, v)]
termination_by sizeOf v

end

/-- Embedding of `ClaudeConfigManager::deep_merge`: mutate the target only when
both values are objects, merging the source fields one by one. -/
def deepMerge : Json → Json → Json
  | Json.obj t, Json.obj s => Json.obj (mergeFields t s)
  | t, _ => t

/-- Keys stripped at the top level of `settings.json` by `sync_to_settings`
(the six `obj.remove` calls). -/
def ownedTopKeys : List String :=
  ["ANTHROPIC_AUTH_TOKEN", "ANTHROPIC_BASE_URL", "ANTHROPIC_VERTEX_BASE_URL",
   "ANTHROPIC_VERTEX_PROJECT_ID", "CLAUDE_CODE_USE_VERTEX", "CLAUDE_CODE_SKIP_VERTEX_AUTH"]

/-- Keys stripped inside the nested `env` object by `sync_to_settings`
(the seven `env_obj.remove` calls). -/
def ownedEnvKeys : List String :=
  ["ANTHROPIC_AUTH_TOKEN", "ANTHROPIC_BASE_URL", "ANTHROPIC_VERTEX_BASE_URL",
   "ANTHROPIC_VERTEX_PROJECT_ID", "CLAUDE_CODE_USE_VERTEX", "CLAUDE_CODE_SKIP_VERTEX_AUTH",
   "CLAUDE_CODE_DISABLE_NONESSENTIAL_TRAFFIC"]

/-- The fresh `env` object built by `sync_to_settings` for the active
configuration: auth token always; in Vertex mode the Vertex keys, otherwise the
plain base URL when present. -/
def buildNewEnv (cfg : ClaudeActiveConfig) : List (String × Json) :=
  [("ANTHROPIC_AUTH_TOKEN", Json.str cfg.token)]
  ++ (if cfg.vertex.enabled then
        [("CLAUDE_CODE_USE_VERTEX", Json.str "1")]
        ++ (match cfg.vertex.project_id with
            | some pid => [("ANTHROPIC_VERTEX_PROJECT_ID", Json.str pid)]
            | none => [])
        ++ (match cfg.vertex.base_url with
            | some vu => [("ANTHROPIC_VERTEX_BASE_URL", Json.str vu)]
            | none => [])
        ++ (if cfg.vertex.skip_auth then [("CLAUDE_CODE_SKIP_VERTEX_AUTH", Json.str "1")] else [])
        ++ [("CLAUDE_CODE_DISABLE_NONESSENTIAL_TRAFFIC", Json.str "1")]
      else
        match cfg.base_url with
        | some bu => [("ANTHROPIC_BASE_URL", Json.str bu)]
        | none => [])

/-- First mutation of `sync_to_settings`: strip the owned top-level keys. -/
def stripTop (settings : List (String × Json)) : List (String × Json) :=
  removeKeys settings ownedTopKeys

/-- Second mutation of `sync_to_settings`: insert an empty `env` object when
the key is absent (`settings["env"] = json!({})`). -/
def ensureEnv (s : List (String × Json)) : List (String × Json) :=
  if (getKV s "env").isSome then s else s ++ [("env", Json.obj [])]

/-- Third mutation of `sync_to_settings`: when `env` is an object, strip the
owned keys inside it; any other shape is left untouched. -/
def stripEnv (s : List (String × Json)) : List (String × Json) :=
  match getKV s "env" with
  | some (Json.obj e) => setKV s "env" (Json.obj (removeKeys e ownedEnvKeys))
  | _ => s

/-- Final mutation of `sync_to_settings`: deep-merge the freshly built `env`
object into the stored `env` value. -/
def mergeEnv (cfg : ClaudeActiveConfig) (s : List (String × Json)) : List (String × Json) :=
  match getKV s "env" with
  | some envVal => setKV s "env" (deepMerge envVal (Json.obj (buildNewEnv cfg)))
  | none => s

/-- Embedding of `ClaudeConfigManager::sync_to_settings` on the parsed
top-level object of `settings.json`, as the composition of its four
sequential mutations. -/
def sync_to_settings (cfg : ClaudeActiveConfig)
    (settings : List (String × Json)) : List (String × Json) :=
  mergeEnv cfg (stripEnv (ensureEnv (stripTop settings)))

/-- Combined state seen by `ConfigManager` for the Claude family: the
credential store (`claude.json`), the active slot of the global `config.json`,
and the parsed top-level object of the external `~/.claude/settings.json`. -/
structure ClaudeMgrState where
  store : ClaudeConfig
  active : Option ClaudeActiveReference
  settings : List (String × Json)
deriving Repr

/-- Embedding of `ClaudeConfigManager::add_site`: reject a duplicate name,
otherwise insert a fresh site and persist. -/
def mgrAddSite (st : ClaudeMgrState) (site_name url : String) (description : Option String)
    (now : String) : Except String ClaudeMgrState :=
  if (getKV st.store.sites site_name).isSome then
    .error ("站点 \x27" ++ site_name ++ "\x27 已存在")
  else
    .ok { st with store := { st.store with
            sites := putKV st.store.sites site_name (ClaudeSite.new url description now) } }

/-- Embedding of `ClaudeConfigManager::add_token`: site must exist, token name
must be fresh within the site. -/
def mgrAddToken (st : ClaudeMgrState) (site_name token_name token now : String) :
    Except String ClaudeMgrState :=
  match getKV st.store.sites site_name with
  | none => .error (siteNotFoundMsg site_name)
  | some site =>
    if (getKV site.tokens token_name).isSome then
      .error ("Token \x27" ++ token_name ++ "\x27 已存在于站点 \x27" ++ site_name ++ "\x27")
    else
      .ok { st with store := { st.store with
              sites := setKV st.store.sites site_name (site.addToken token_name token now) } }

/-- Embedding of `ClaudeConfigManager::remove_token`: site must exist and the
token must be present; only `claude.json` is touched. -/
def mgrRemoveToken (st : ClaudeMgrState) (site_name token_name now : String) :
    Except String ClaudeMgrState :=
  match getKV st.store.sites site_name with
  | none => .error (siteNotFoundMsg site_name)
  | some site =>
    match getKV site.tokens token_name with
    | none => .error (tokenMissingInSiteMsg token_name site_name)
    | some _ =>
      .ok { st with store := { st.store with
              sites := setKV st.store.sites site_name (site.removeToken token_name now) } }

/-- Embedding of `ClaudeConfigManager::remove_site`: the site must exist;
only `claude.json` is touched. -/
def mgrRemoveSite (st : ClaudeMgrState) (site_name : String) :
    Except String ClaudeMgrState :=
  if (getKV st.store.sites site_name).isSome then
    .ok { st with store := { st.store with sites := removeKV st.store.sites site_name } }
  else
    .error (siteNotFoundMsg site_name)

/-- Embedding of `ConfigManager::get_active_claude_config`: `Ok(None)` when no
reference is stored, otherwise resolve it against the store. -/
def getActiveClaude (st : ClaudeMgrState) : Except String (Option ClaudeActiveConfig) :=
  match st.active with
  | none => .ok none
  | some reference =>
    match resolveClaude reference st.store with
    | .error e => .error e
    | .ok cfg => .ok (some cfg)

/-- Embedding of `ConfigManager::switch_claude_config`: validate site and
token, store the new reference, re-resolve it and synchronize the external
settings file. -/
def switchClaude (st : ClaudeMgrState) (site_name token_name : String) :
    Except String ClaudeMgrState :=
  match getKV st.store.sites site_name with
  | none => .error (siteNotFoundMsg site_name)
  | some site =>
    if (getKV site.tokens token_name).isSome then
      let st1 := { st with active := some { site := site_name, token_name := token_name } }
      match getActiveClaude st1 with
      | .error e => .error e
      | .ok none => .error "无法获取激活的 Claude 配置"
      | .ok (some cfg) => .ok { st1 with settings := sync_to_settings cfg st1.settings }
    else
      .error (tokenMissingInSiteMsg token_name site_name)

/-- Gemini per-site settings, embedding `GeminiSiteConfig`. -/
structure GeminiSiteConfig where
  base_url : Option String
  model : Option String
deriving Repr

/-- Gemini site record, embedding `GeminiSite`; the `api_keys` map becomes an
association list. -/
structure GeminiSite where
  metadata : SiteMetadata
  api_keys : List (String × String)
  config : GeminiSiteConfig
deriving Repr

/-- Gemini credential store, embedding `GeminiConfig` (the `gemini.json` document). -/
structure GeminiConfig where
  version : String
  sites : List (String × GeminiSite)
deriving Repr

/-- Embedding of `GeminiConfig::new`. -/
def GeminiConfig.new : GeminiConfig :=
  { version := "3.0.0", sites := [] }

/-- Gemini active reference, embedding `GeminiActiveReference`. -/
structure GeminiActiveReference where
  site : String
  api_key_name : String
deriving Repr

/-- Resolved Gemini runtime configuration, embedding `GeminiActiveConfig`. -/
structure GeminiActiveConfig where
  site : String
  site_url : String
  site_description : Option String
  api_key_name : String
  api_key : String
  base_url : Option String
  model : Option String
deriving Repr

/-- Error message of `GeminiActiveConfig::from_reference` (and the Codex twin)
for a missing API key. -/
def apiKeyNotFoundMsg (key_name site : String) : String :=
  "API Key \x27" ++ key_name ++ "\x27 not found in site \x27" ++ site ++ "\x27"

/-- Error message of `get_active_gemini_config` for a missing site. -/
def geminiSiteNotFoundMsg (site : String) : String :=
  "站点 \x27" ++ site ++ "\x27 不存在于 gemini.json"

/-- Embedding of `GeminiActiveConfig::from_reference`. -/
def GeminiActiveConfig.from_reference (reference : GeminiActiveReference)
    (site : GeminiSite) : Except String GeminiActiveConfig :=
  match getKV site.api_keys reference.api_key_name with
  | none => .error (apiKeyNotFoundMsg reference.api_key_name reference.site)
  | some api_key =>
    .ok { site := reference.site
          site_url := site.metadata.url
          site_description := site.metadata.description
          api_key_name := reference.api_key_name
          api_key := api_key
          base_url := site.config.base_url
          model := site.config.model }

/-- Resolution of a stored Gemini reference against the credential store,
embedding the body of `ConfigManager::get_active_gemini_config` after the
reference has been found set. -/
def resolveGemini (reference : GeminiActiveReference) (store : GeminiConfig) :
    Except String GeminiActiveConfig :=
  match getKV store.sites reference.site with
  | none => .error (geminiSiteNotFoundMsg reference.site)
  | some site => GeminiActiveConfig.from_reference reference site

/-- Embedding of `GeminiConfigManager::sync_to_env`: the full `.env` content,
one line per present optional field plus the mandatory API key line. -/
def geminiEnvContent (cfg : GeminiActiveConfig) : String :=
  let lines :=
    (match cfg.base_url with
     | some bu => ["GOOGLE_GEMINI_BASE_URL=" ++ bu]
     | none => [])
    ++ ["GEMINI_API_KEY=" ++ cfg.api_key]
    ++ (match cfg.model with
        | some m => ["GEMINI_MODEL=" ++ m]
        | none => [])
  String.intercalate "\n" lines ++ "\n"

/-- File-level embedding of `sync_to_env`: `fs::write` replaces whatever the
`.env` file held before, without reading it. -/
def geminiSyncEnvFile (cfg : GeminiActiveConfig) (_prev : String) : String :=
  geminiEnvContent cfg

/-- Resolved Codex runtime configuration, embedding `CodexActiveConfig`. -/
structure CodexActiveConfig where
  site : String
  site_url : String
  site_description : Option String
  api_key_name : String
  api_key : String
  base_url : Option String
  model : Option String
  model_reasoning_effort : Option String
  model_provider : Option String
  network_access : Option String
  disable_response_storage : Option Bool
  wire_api : Option String
deriving Repr

/-- Provider identifier used by `sync_to_config_toml`: the explicit
`model_provider` when set, else the site name (`unwrap_or(&active_config.site)`). -/
def codexProviderName (cfg : CodexActiveConfig) : String :=
  cfg.model_provider.getD cfg.site

/-- Top-level scalar lines of `config.toml`, embedding the pushes of
`sync_to_config_toml` before the blank line. -/
def codexTopLines (cfg : CodexActiveConfig) : List String :=
  ["model_provider = \"" ++ codexProviderName cfg ++ "\""]
  ++ (match cfg.model with
      | some m => ["model = \"" ++ m ++ "\""]
      | none => [])
  ++ (match cfg.model_reasoning_effort with
      | some re => ["model_reasoning_effort = \"" ++ re ++ "\""]
      | none => [])
  ++ (match cfg.network_access with
      | some na => ["network_access = \"" ++ na ++ "\""]
      | none => [])
  ++ (match cfg.disable_response_storage with
      | some b => ["disable_response_storage = " ++ (if b then "true" else "false")]
      | none => [])

/-- Lines of the bracketed `[model_providers.<id>]` section of `config.toml`,
embedding the pushes of `sync_to_config_toml` after the blank line. -/
def codexSectionLines (cfg : CodexActiveConfig) : List String :=
  ["[model_providers." ++ codexProviderName cfg ++ "]",
   "name = \"" ++ codexProviderName cfg ++ "\""]
  ++ (match cfg.base_url with
      | some bu => ["base_url = \"" ++ bu ++ "\""]
      | none => [])
  ++ (match cfg.wire_api with
      | some wa => ["wire_api = \"" ++ wa ++ "\""]
      | none => [])
  ++ ["requires_openai_auth = true"]

/-- Full `config.toml` content: `lines.join("\n") + "\n"`. -/
def codexConfigTomlContent (cfg : CodexActiveConfig) : String :=
  String.intercalate "\n" (codexTopLines cfg ++ [""] ++ codexSectionLines cfg) ++ "\n"

/-- File-level embedding of `sync_to_config_toml`: the write replaces the
previous file content without reading it. -/
def codexSyncConfigToml (cfg : CodexActiveConfig) (_prev : String) : String :=
  codexConfigTomlContent cfg

/-- Content of `auth.json` as a JSON value, embedding `sync_to_auth_json`
(serialization of the value to bytes is deterministic). -/
def codexAuthJsonContent (cfg : CodexActiveConfig) : Json :=
  Json.obj [("OPENAI_API_KEY", Json.str cfg.api_key)]

/-- File-level embedding of `sync_to_auth_json`: full overwrite. -/
def codexSyncAuthJson (cfg : CodexActiveConfig) (_prev : Json) : Json :=
  codexAuthJsonContent cfg

/-- OpenCode provider connection options, embedding `OpenCodeProviderOptions`
(serialized as `baseURL` / `apiKey`). -/
structure OpenCodeProviderOptions where
  base_url : String
  api_key : String
deriving Repr

/-- OpenCode model limits, embedding `OpenCodeModelLimit`. -/
structure OpenCodeModelLimit where
  context : Option Nat
  output : Option Nat
deriving Repr

/-- OpenCode model entry, embedding `OpenCodeModelInfo`; the `#[serde(skip)]`
detection-cache field is omitted because it never reaches any synchronized
output. -/
structure OpenCodeModelInfo where
  name : String
  limit : Option OpenCodeModelLimit
deriving Repr

/-- OpenCode provider record, embedding `OpenCodeProvider`; the
`#[serde(skip)]` metadata and detection-cache fields are omitted because they
never reach any synchronized output. -/
structure OpenCodeProvider where
  npm : Option String
  name : String
  options : OpenCodeProviderOptions
  models : List (String × OpenCodeModelInfo)
deriving Repr

/-- OpenCode credential store, embedding `OpenCodeConfig`
(the `~/.cc-cli/opencode.json` document). -/
structure OpenCodeConfig where
  version : String
  providers : List (String × OpenCodeProvider)
deriving Repr

/-- Modelled from the spec: one role of the dual-model family's active
reference, an independent (provider, model) pair. The struct declaration is
absent from the `models.rs` snapshot (which still holds an older
single-provider form); the fields are fixed by its uses in
`ConfigManager::switch_opencode_config` and
`OpenCodeConfigManager::sync_to_opencode`. -/
structure OpenCodeModelReference where
  provider : String
  model : String
deriving Repr

/-- Modelled from the spec: the dual-model family's active configuration with
independently selectable `main` and `small` roles, as consumed by
`sync_to_opencode` (`active_config.main.provider` etc.). -/
structure OpenCodeDualActive where
  main : OpenCodeModelReference
  small : OpenCodeModelReference
deriving Repr

/-- Serialization of a model entry as placed into `opencode.json`
(`limit` omitted when `None`; inside it, absent bounds are omitted). -/
def modelInfoJson (m : OpenCodeModelInfo) : Json :=
  Json.obj
    ([("name", Json.str m.name)]
     ++ (match m.limit with
         | some l =>
           [("limit", Json.obj
             ((match l.context with
               | some c => [("context", Json.num (Int.ofNat c))]
               | none => [])
              ++ (match l.output with
                  | some o => [("output", Json.num (Int.ofNat o))]
                  | none => [])))]
         | none => []))

/-- Serialization of a provider definition as embedded into `opencode.json`
by `serde_json::to_value` (the `#[serde(skip)]` fields never appear). -/
def providerJson (p : OpenCodeProvider) : Json :=
  Json.obj
    ((match p.npm with
      | some n => [("npm", Json.str n)]
      | none => [])
     ++ [("name", Json.str p.name),
         ("options", Json.obj
           [("baseURL", Json.str p.options.base_url),
            ("apiKey", Json.str p.options.api_key)]),
         ("models", Json.obj (p.models.map (fun q => (q.1, modelInfoJson q.2))))])

/-- First insertion of `sync_to_opencode`: the provider cited by the `main`
role, when the store holds it. -/
def mainProviderPart (store : OpenCodeConfig) (cfg : OpenCodeDualActive) :
    List (String × Json) :=
  match getKV store.providers cfg.main.provider with
  | some p => putKV [] cfg.main.provider (providerJson p)
  | none => []

/-- The `provider` object of the generated `opencode.json`: only the providers
referenced by the `main` and `small` roles, the shared provider once
(the `small` insertion is guarded by `small.provider != main.provider`). -/
def buildProvidersMap (store : OpenCodeConfig) (cfg : OpenCodeDualActive) :
    List (String × Json) :=
  if cfg.small.provider ≠ cfg.main.provider then
    match getKV store.providers cfg.small.provider with
    | some p => putKV (mainProviderPart store cfg) cfg.small.provider (providerJson p)
    | none => mainProviderPart store cfg
  else mainProviderPart store cfg

/-- Embedding of `OpenCodeConfigManager::sync_to_opencode`: the full generated
`~/.opencode/opencode.json` document. -/
def syncToOpencodeContent (store : OpenCodeConfig) (cfg : OpenCodeDualActive) : Json :=
  Json.obj
    [("$schema", Json.str "https://opencode.ai/config.json"),
     ("theme", Json.str "tokyonight"),
     ("autoupdate", Json.bool false),
     ("model", Json.str (cfg.main.provider ++ "/" ++ cfg.main.model)),
     ("small_model", Json.str (cfg.small.provider ++ "/" ++ cfg.small.model)),
     ("provider", Json.obj (buildProvidersMap store cfg)),
     ("tools", Json.obj
       [("get-current-session-id", Json.bool true), ("webfetch", Json.bool true)]),
     ("agent", Json.obj []),
     ("mcp", Json.obj [])]

/-- File-level embedding of `sync_to_opencode`: full overwrite of the target
file from the store and the active roles. -/
def syncToOpencodeFile (store : OpenCodeConfig) (cfg : OpenCodeDualActive)
    (_prev : Json) : Json :=
  syncToOpencodeContent store cfg

/-- Codex per-site settings, embedding `CodexSiteConfig`. -/
structure CodexSiteConfig where
  base_url : Option String
  model : Option String
  model_reasoning_effort : Option String
  model_provider : Option String
  network_access : Option String
  disable_response_storage : Option Bool
  wire_api : Option String
deriving Repr

/-- Codex site record, embedding `CodexSite`. -/
structure CodexSite where
  metadata : SiteMetadata
  api_keys : List (String × String)
  config : CodexSiteConfig
deriving Repr

/-- Codex credential store, embedding `CodexConfig` (the `codex.json` document). -/
structure CodexConfig where
  version : String
  sites : List (String × CodexSite)
deriving Repr

/-- Embedding of `CodexConfig::new`. -/
def CodexConfig.new : CodexConfig :=
  { version := "3.0.0", sites := [] }

/-- Outcome of reading one persisted store document: `none` when the file does
not exist, otherwise the result of `serde_json::from_str` on its content. -/
def ReadOutcome (α : Type) : Type := Option (Except String α)

/-- Embedding of `ClaudeConfigManager::read_config`: an absent file yields the
empty default store; an existing file yields exactly the parse outcome,
errors included. -/
def readClaudeConfig (file : ReadOutcome ClaudeConfig) : Except String ClaudeConfig :=
  match file with
  | none => .ok ClaudeConfig.new
  | some parsed => parsed

/-- Embedding of `CodexConfigManager::read_config`, same shape. -/
def readCodexConfig (file : ReadOutcome CodexConfig) : Except String CodexConfig :=
  match file with
  | none => .ok CodexConfig.new
  | some parsed => parsed

/-- Embedding of `GeminiConfigManager::read_config`, same shape. -/
def readGeminiConfig (file : ReadOutcome GeminiConfig) : Except String GeminiConfig :=
  match file with
  | none => .ok GeminiConfig.new
  | some parsed => parsed

/-- Codex active reference, embedding `CodexActiveReference`. -/
structure CodexActiveReference where
  site : String
  api_key_name : String
deriving Repr

/-- Per-family active slots of the global `config.json`, embedding
`ActiveConfigs`. -/
structure ActiveConfigs where
  claude : Option ClaudeActiveReference
  codex : Option CodexActiveReference
  gemini : Option GeminiActiveReference
  opencode : Option OpenCodeDualActive
deriving Repr

/-- Embedding of `ConfigManager::has_any_config`: it inspects only the Claude
slot of the global configuration. -/
def hasAnyConfig (active : ActiveConfigs) : Bool :=
  active.claude.isSome

theorem getKV_append_single_self {α : Type} (l : List (String × α)) (k : String) (v : α)
    (h : getKV l k = none) : getKV (l ++ [(k, v)]) k = some v := by
  induction l with
  | nil => simp [getKV]
  | cons p rest ih =>
    obtain ⟨a, b⟩ := p
    by_cases hc : a = k
    · simp [getKV, hc] at h
    · simp only [getKV, if_neg hc] at h
      simpa [getKV, hc] using ih h

theorem deepMerge_not_obj (v w : Json) (h : ∀ t, v ≠ Json.obj t) :
    deepMerge v w = v := by
  cases v with
  | obj t => exact absurd rfl (h t)
  | null => cases w <;> rfl
  | bool b => cases w <;> rfl
  | num n => cases w <;> rfl
  | str s => cases w <;> rfl
  | arr xs => cases w <;> rfl

theorem getKV_mergeField_ne (t : List (String × Json)) (k0 k : String) (v : Json)
    (h : k ≠ k0) : getKV (mergeField t k0 v) k = getKV t k := by
  unfold mergeField
  cases hget : getKV t k0 with
  | none => exact getKV_append_single_ne _ _ _ _ h
  | some tv =>
    cases tv with
    | obj a =>
      cases v with
      | obj b => exact getKV_setKV_ne _ _ _ _ h
      | null => exact getKV_setKV_ne _ _ _ _ h
      | bool c => exact getKV_setKV_ne _ _ _ _ h
      | num c => exact getKV_setKV_ne _ _ _ _ h
      | str c => exact getKV_setKV_ne _ _ _ _ h
      | arr c => exact getKV_setKV_ne _ _ _ _ h
    | null => exact getKV_setKV_ne _ _ _ _ h
    | bool c => exact getKV_setKV_ne _ _ _ _ h
    | num c => exact getKV_setKV_ne _ _ _ _ h
    | str c => exact getKV_setKV_ne _ _ _ _ h
    | arr c => exact getKV_setKV_ne _ _ _ _ h

theorem getKV_mergeFields_not_mem (src : List (String × Json)) :
    ∀ (t : List (String × Json)) (k : String), (∀ p ∈ src, p.1 ≠ k) →
      getKV (mergeFields t src) k = getKV t k := by
  induction src with
  | nil => intro t k _; simp only [mergeFields]
  | cons q rest ih =>
    intro t k h
    obtain ⟨k0, v⟩ := q
    have h0 : k0 ≠ k := h (k0, v) (List.mem_cons_self _ _)
    have hr : ∀ p ∈ rest, p.1 ≠ k := fun p hp => h p (List.mem_cons_of_mem _ hp)
    simp only [mergeFields]
    calc getKV (mergeFields (mergeField t k0 v) rest) k
        = getKV (mergeField t k0 v) k := ih _ _ hr
      _ = getKV t k := getKV_mergeField_ne _ _ _ _ (fun hc => h0 hc.symm)

theorem buildNewEnv_keys_owned (cfg : ClaudeActiveConfig) :
    ∀ p ∈ buildNewEnv cfg, p.1 ∈ ownedEnvKeys := by
  intro p hp
  obtain ⟨pk, pv⟩ := p
  obtain ⟨s1, s2, s3, s4, s5, bu, mo, vx⟩ := cfg
  obtain ⟨en, pid, vbu, sk⟩ := vx
  cases en <;> cases pid <;> cases vbu <;> cases sk <;> cases bu <;>
    simp [buildNewEnv, ownedEnvKeys, Prod.mk.injEq] at hp ⊢ <;> tauto

theorem buildNewEnv_ne_of_not_owned (cfg : ClaudeActiveConfig) (k : String)
    (h : k ∉ ownedEnvKeys) : ∀ p ∈ buildNewEnv cfg, p.1 ≠ k :=
  fun p hp hc => h (hc ▸ buildNewEnv_keys_owned cfg p hp)

theorem buildNewEnv_disabled_keys (cfg : ClaudeActiveConfig)
    (h : cfg.vertex.enabled = false) :
    ∀ p ∈ buildNewEnv cfg, p.1 = "ANTHROPIC_AUTH_TOKEN" ∨ p.1 = "ANTHROPIC_BASE_URL" := by
  intro p hp
  obtain ⟨pk, pv⟩ := p
  cases hb : cfg.base_url <;>
    simp [buildNewEnv, h, hb, Prod.mk.injEq] at hp <;> tauto

theorem buildNewEnv_enabled_no_base_url (cfg : ClaudeActiveConfig)
    (h : cfg.vertex.enabled = true) :
    ∀ p ∈ buildNewEnv cfg, p.1 ≠ "ANTHROPIC_BASE_URL" := by
  intro p hp
  obtain ⟨pk, pv⟩ := p
  intro hc
  cases hpid : cfg.vertex.project_id <;> cases hvbu : cfg.vertex.base_url <;>
    cases hsk : cfg.vertex.skip_auth <;>
      simp [buildNewEnv, h, hpid, hvbu, hsk, Prod.mk.injEq] at hp <;>
        simp_all

theorem getKV_stripTop_not_owned (s : List (String × Json)) (k : String)
    (h : k ∉ ownedTopKeys) : getKV (stripTop s) k = getKV s k :=
  getKV_removeKeys_not_mem _ _ _ h

theorem getKV_stripTop_owned (s : List (String × Json)) (k : String)
    (h : k ∈ ownedTopKeys) : getKV (stripTop s) k = none :=
  getKV_removeKeys_mem _ _ _ h

theorem getKV_ensureEnv_ne (s : List (String × Json)) (k : String) (h : k ≠ "env") :
    getKV (ensureEnv s) k = getKV s k := by
  unfold ensureEnv
  by_cases he : (getKV s "env").isSome
  · simp [he]
  · simp [he, getKV_append_single_ne s "env" k (Json.obj []) h]

theorem getKV_stripEnv_ne (s : List (String × Json)) (k : String) (h : k ≠ "env") :
    getKV (stripEnv s) k = getKV s k := by
  unfold stripEnv
  cases hE : getKV s "env" with
  | none => rfl
  | some v =>
    cases v with
    | obj e => exact getKV_setKV_ne _ _ _ _ h
    | null => rfl
    | bool b => rfl
    | num n => rfl
    | str t => rfl
    | arr xs => rfl

theorem getKV_mergeEnv_ne (cfg : ClaudeActiveConfig) (s : List (String × Json))
    (k : String) (h : k ≠ "env") : getKV (mergeEnv cfg s) k = getKV s k := by
  unfold mergeEnv
  cases hE : getKV s "env" with
  | none => rfl
  | some v => exact getKV_setKV_ne _ _ _ _ h

theorem getKV_ensureEnv_some (s : List (String × Json)) (v : Json)
    (h : getKV s "env" = some v) : getKV (ensureEnv s) "env" = some v := by
  unfold ensureEnv
  simp [h]

theorem getKV_ensureEnv_none (s : List (String × Json))
    (h : getKV s "env" = none) : getKV (ensureEnv s) "env" = some (Json.obj []) := by
  unfold ensureEnv
  simp only [h, Option.isSome_none, Bool.false_eq_true, if_false]
  exact getKV_append_single_self _ _ _ h

theorem getKV_stripEnv_obj (s : List (String × Json)) (e : List (String × Json))
    (h : getKV s "env" = some (Json.obj e)) :
    getKV (stripEnv s) "env" = some (Json.obj (removeKeys e ownedEnvKeys)) := by
  unfold stripEnv
  rw [h]
  exact getKV_setKV_self _ _ _ (by simp [h])

theorem getKV_mergeEnv_some (cfg : ClaudeActiveConfig) (s : List (String × Json))
    (v : Json) (h : getKV s "env" = some v) :
    getKV (mergeEnv cfg s) "env" = some (deepMerge v (Json.obj (buildNewEnv cfg))) := by
  unfold mergeEnv
  rw [h]
  exact getKV_setKV_self _ _ _ (by simp [h])

theorem deepMerge_obj (t s : List (String × Json)) :
    deepMerge (Json.obj t) (Json.obj s) = Json.obj (mergeFields t s) := rfl

/-- Lookup inside the nested `env` object of a settings document; `none` when
`env` is absent or not an object. -/
def envLookup (s : List (String × Json)) (k : String) : Option Json :=
  match getKV s "env" with
  | some (Json.obj e) => getKV e k
  | _ => none

theorem envKey_not_top_owned : "env" ∉ ownedTopKeys := by decide

theorem removeKeys_nil {α : Type} (keys : List String) :
    removeKeys ([] : List (String × α)) keys = [] := by
  induction keys with
  | nil => rfl
  | cons k rest ih => simpa [removeKeys, removeKV] using ih

/-- Combined description of the `env` object produced by `sync_to_settings`
when the pre-existing `env` entry is absent or an object. -/
theorem sync_env_obj (cfg : ClaudeActiveConfig) (settings : List (String × Json)) :
    (∀ e, getKV settings "env" = some (Json.obj e) →
      getKV (sync_to_settings cfg settings) "env"
        = some (Json.obj (mergeFields (removeKeys e ownedEnvKeys) (buildNewEnv cfg))))
    ∧ (getKV settings "env" = none →
      getKV (sync_to_settings cfg settings) "env"
        = some (Json.obj (mergeFields [] (buildNewEnv cfg)))) := by
  constructor
  · intro e he
    have h1 : getKV (stripTop settings) "env" = some (Json.obj e) :=
      (getKV_stripTop_not_owned settings "env" envKey_not_top_owned).trans he
    have h2 := getKV_ensureEnv_some _ _ h1
    have h3 := getKV_stripEnv_obj _ _ h2
    have h4 := getKV_mergeEnv_some cfg _ _ h3
    unfold sync_to_settings
    rw [h4, deepMerge_obj]
  · intro he
    have h1 : getKV (stripTop settings) "env" = none :=
      (getKV_stripTop_not_owned settings "env" envKey_not_top_owned).trans he
    have h2 := getKV_ensureEnv_none _ h1
    have h3 := getKV_stripEnv_obj _ _ h2
    have h4 := getKV_mergeEnv_some cfg _ _ h3
    unfold sync_to_settings
    rw [h4, deepMerge_obj, removeKeys_nil]

theorem resolveClaude_site_missing (store : ClaudeConfig) (ref : ClaudeActiveReference)
    (hs : getKV store.sites ref.site = none) :
    resolveClaude ref store = .error (siteNotFoundMsg ref.site) := by
  simp [resolveClaude, hs]

theorem resolveClaude_token_missing (store : ClaudeConfig) (ref : ClaudeActiveReference)
    (site : ClaudeSite) (hs : getKV store.sites ref.site = some site)
    (ht : getKV site.tokens ref.token_name = none) :
    resolveClaude ref store = .error (tokenNotFoundMsg ref.token_name ref.site) := by
  simp [resolveClaude, ClaudeActiveConfig.from_reference, hs, ht]

theorem resolveClaude_ok (store : ClaudeConfig) (ref : ClaudeActiveReference)
    (site : ClaudeSite) (tok : String)
    (hs : getKV store.sites ref.site = some site)
    (ht : getKV site.tokens ref.token_name = some tok) :
    resolveClaude ref store = Except.ok
      { site := ref.site, site_url := site.metadata.url
        site_description := site.metadata.description
        token_name := ref.token_name, token := tok
        base_url := site.config.base_url, model := site.config.model
        vertex := site.config.vertex } := by
  simp [resolveClaude, ClaudeActiveConfig.from_reference, hs, ht]

theorem resolveGemini_site_missing (store : GeminiConfig) (ref : GeminiActiveReference)
    (hs : getKV store.sites ref.site = none) :
    resolveGemini ref store = .error (geminiSiteNotFoundMsg ref.site) := by
  simp [resolveGemini, hs]

theorem resolveGemini_key_missing (store : GeminiConfig) (ref : GeminiActiveReference)
    (site : GeminiSite) (hs : getKV store.sites ref.site = some site)
    (ht : getKV site.api_keys ref.api_key_name = none) :
    resolveGemini ref store = .error (apiKeyNotFoundMsg ref.api_key_name ref.site) := by
  simp [resolveGemini, GeminiActiveConfig.from_reference, hs, ht]

theorem resolveGemini_ok (store : GeminiConfig) (ref : GeminiActiveReference)
    (site : GeminiSite) (key : String)
    (hs : getKV store.sites ref.site = some site)
    (ht : getKV site.api_keys ref.api_key_name = some key) :
    resolveGemini ref store = Except.ok
      { site := ref.site, site_url := site.metadata.url
        site_description := site.metadata.description
        api_key_name := ref.api_key_name, api_key := key
        base_url := site.config.base_url, model := site.config.model } := by
  simp [resolveGemini, GeminiActiveConfig.from_reference, hs, ht]

theorem stripEnv_not_obj (s : List (String × Json)) (v : Json)
    (h : getKV s "env" = some v) (hv : ∀ e, v ≠ Json.obj e) :
    stripEnv s = s := by
  unfold stripEnv
  rw [h]
  cases v with
  | obj e => exact absurd rfl (hv e)
  | null => rfl
  | bool b => rfl
  | num n => rfl
  | str t => rfl
  | arr xs => rfl

theorem sync_env_not_obj (cfg : ClaudeActiveConfig) (s : List (String × Json)) (v : Json)
    (hE : getKV s "env" = some v) (hv : ∀ e, v ≠ Json.obj e) :
    getKV (sync_to_settings cfg s) "env" = some v := by
  have h1 : getKV (stripTop s) "env" = some v :=
    (getKV_stripTop_not_owned s "env" envKey_not_top_owned).trans hE
  have h2 := getKV_ensureEnv_some _ _ h1
  unfold sync_to_settings
  rw [stripEnv_not_obj _ _ h2 hv, getKV_mergeEnv_some cfg _ _ h2,
      deepMerge_not_obj v _ hv]

theorem sync_top_owned_none (cfg : ClaudeActiveConfig) (s : List (String × Json))
    (k : String) (hk : k ∈ ownedTopKeys) (he : k ≠ "env") :
    getKV (sync_to_settings cfg s) k = none := by
  unfold sync_to_settings
  rw [getKV_mergeEnv_ne _ _ _ he, getKV_stripEnv_ne _ _ he, getKV_ensureEnv_ne _ _ he,
      getKV_stripTop_owned _ _ hk]

theorem sync_env_lookup_none (cfg : ClaudeActiveConfig) (s : List (String × Json))
    (k : String) (hk : k ∈ ownedEnvKeys)
    (hall : ∀ p ∈ buildNewEnv cfg, p.1 ≠ k) :
    envLookup (sync_to_settings cfg s) k = none := by
  cases hE : getKV s "env" with
  | none =>
    have h := (sync_env_obj cfg s).2 hE
    simp only [envLookup, h]
    rw [getKV_mergeFields_not_mem _ _ _ hall]
    rfl
  | some v =>
    cases v with
    | obj e =>
      have h := (sync_env_obj cfg s).1 e hE
      simp only [envLookup, h]
      rw [getKV_mergeFields_not_mem _ _ _ hall]
      exact getKV_removeKeys_mem _ _ _ hk
    | null =>
      simp [envLookup, sync_env_not_obj cfg s _ hE (fun _ h => Json.noConfusion h)]
    | bool b =>
      simp [envLookup, sync_env_not_obj cfg s _ hE (fun _ h => Json.noConfusion h)]
    | num n =>
      simp [envLookup, sync_env_not_obj cfg s _ hE (fun _ h => Json.noConfusion h)]
    | str t =>
      simp [envLookup, sync_env_not_obj cfg s _ hE (fun _ h => Json.noConfusion h)]
    | arr xs =>
      simp [envLookup, sync_env_not_obj cfg s _ hE (fun _ h => Json.noConfusion h)]

/-- C3: merge non-destruction of the shared settings.json: after
`sync_to_settings`, every top-level entry outside the owned key set (and
other than the nested `env` object the synchronizer manages) is unchanged;
inside a pre-existing `env` object every entry outside the owned env key set
is unchanged; and an `env` entry that is not an object is itself left exactly
as it was. -/
theorem sync_merge_non_destructive (cfg : ClaudeActiveConfig)
    (settings : List (String × Json)) :
    (∀ k, k ∉ ownedTopKeys → k ≠ "env" →
      getKV (sync_to_settings cfg settings) k = getKV settings k)
    ∧ (∀ e, getKV settings "env" = some (Json.obj e) →
        ∀ k, k ∉ ownedEnvKeys →
          envLookup (sync_to_settings cfg settings) k = getKV e k)
    ∧ (∀ v, getKV settings "env" = some v → (∀ e, v ≠ Json.obj e) →
        getKV (sync_to_settings cfg settings) "env" = some v) := by
  refine ⟨?_, ?_, fun v hv hne => sync_env_not_obj cfg settings v hv hne⟩
  · intro k hk he
    unfold sync_to_settings
    rw [getKV_mergeEnv_ne _ _ _ he, getKV_stripEnv_ne _ _ he, getKV_ensureEnv_ne _ _ he,
        getKV_stripTop_not_owned _ _ hk]
  · intro e he k hk
    have h := (sync_env_obj cfg settings).1 e he
    simp only [envLookup, h]
    rw [getKV_mergeFields_not_mem _ _ _ (buildNewEnv_ne_of_not_owned cfg k hk)]
    exact getKV_removeKeys_not_mem _ _ _ hk

/-- Concrete non-Vertex active configuration used by witnesses. -/
def cfgW : ClaudeActiveConfig :=
  { site := "acme", site_url := "https://api.acme.test", site_description := none
    token_name := "primary", token := "sk-123"
    base_url := some "https://api.acme.test/v1", model := none
    vertex := VertexConfig.default }

/-- Concrete pre-existing settings document used by witnesses (Scenario C). -/
def settingsW : List (String × Json) :=
  [("unrelated_key", Json.num 42), ("env", Json.obj [("SOME_OTHER_VAR", Json.str "x")])]

/-- Witness for C3: on the Scenario C document, the unrelated top-level key
and the unrelated env entry survive the sync with their values intact. -/
theorem sync_merge_non_destructive_witness :
    getKV (sync_to_settings cfgW settingsW) "unrelated_key" = some (Json.num 42)
    ∧ envLookup (sync_to_settings cfgW settingsW) "SOME_OTHER_VAR" = some (Json.str "x") :=
  ⟨((sync_merge_non_destructive cfgW settingsW).1 "unrelated_key"
      (by decide) (by decide)).trans rfl,
   ((sync_merge_non_destructive cfgW settingsW).2.1 [("SOME_OTHER_VAR", Json.str "x")]
      rfl "SOME_OTHER_VAR" (by decide)).trans rfl⟩

/-- C4 counterexample: a pre-existing settings document holding the
Vertex-only key `CLAUDE_CODE_DISABLE_NONESSENTIAL_TRAFFIC` at the TOP level
still holds it after a vertex-disabled sync, because the top-level strip list
of `sync_to_settings` omits exactly that key; so the claim's "none of the
Vertex-mode-only keys appear at the top level" fails at this input. -/
theorem mode_switch_residue_counterexample :
    cfgW.vertex.enabled = false
    ∧ getKV (sync_to_settings cfgW
        [("CLAUDE_CODE_DISABLE_NONESSENTIAL_TRAFFIC", Json.str "1")])
        "CLAUDE_CODE_DISABLE_NONESSENTIAL_TRAFFIC" = some (Json.str "1") := by
  refine ⟨rfl, ?_⟩
  unfold sync_to_settings
  rw [getKV_mergeEnv_ne _ _ _ (by decide), getKV_stripEnv_ne _ _ (by decide),
      getKV_ensureEnv_ne _ _ (by decide), getKV_stripTop_not_owned _ _ (by decide)]
  rfl

/-- C4 amended: after a vertex-disabled sync, the four Vertex keys in the
top-level strip list are absent from the top level and all five Vertex-only
keys (including `CLAUDE_CODE_DISABLE_NONESSENTIAL_TRAFFIC`, which is stripped
only inside `env`) are absent from the `env` object; after a vertex-enabled
sync, `ANTHROPIC_BASE_URL` is absent from both places. A pre-existing
top-level copy of `CLAUDE_CODE_DISABLE_NONESSENTIAL_TRAFFIC` is the one
residue the synchronizer does not clear. -/
theorem mode_switch_cleanliness (cfg : ClaudeActiveConfig)
    (settings : List (String × Json)) :
    (cfg.vertex.enabled = false →
      (getKV (sync_to_settings cfg settings) "CLAUDE_CODE_USE_VERTEX" = none
       ∧ getKV (sync_to_settings cfg settings) "ANTHROPIC_VERTEX_BASE_URL" = none
       ∧ getKV (sync_to_settings cfg settings) "ANTHROPIC_VERTEX_PROJECT_ID" = none
       ∧ getKV (sync_to_settings cfg settings) "CLAUDE_CODE_SKIP_VERTEX_AUTH" = none)
      ∧ (envLookup (sync_to_settings cfg settings) "CLAUDE_CODE_USE_VERTEX" = none
         ∧ envLookup (sync_to_settings cfg settings) "ANTHROPIC_VERTEX_BASE_URL" = none
         ∧ envLookup (sync_to_settings cfg settings) "ANTHROPIC_VERTEX_PROJECT_ID" = none
         ∧ envLookup (sync_to_settings cfg settings) "CLAUDE_CODE_SKIP_VERTEX_AUTH" = none
         ∧ envLookup (sync_to_settings cfg settings)
             "CLAUDE_CODE_DISABLE_NONESSENTIAL_TRAFFIC" = none))
    ∧ (cfg.vertex.enabled = true →
      getKV (sync_to_settings cfg settings) "ANTHROPIC_BASE_URL" = none
      ∧ envLookup (sync_to_settings cfg settings) "ANTHROPIC_BASE_URL" = none) := by
  constructor
  · intro hdis
    have hall : ∀ (k : String), k ≠ "ANTHROPIC_AUTH_TOKEN" → k ≠ "ANTHROPIC_BASE_URL" →
        ∀ p ∈ buildNewEnv cfg, p.1 ≠ k := by
      intro k h1 h2 p hp
      rcases buildNewEnv_disabled_keys cfg hdis p hp with h | h <;> rw [h]
      · exact fun hc => h1 hc.symm
      · exact fun hc => h2 hc.symm
    exact ⟨⟨sync_top_owned_none cfg settings _ (by decide) (by decide),
            sync_top_owned_none cfg settings _ (by decide) (by decide),
            sync_top_owned_none cfg settings _ (by decide) (by decide),
            sync_top_owned_none cfg settings _ (by decide) (by decide)⟩,
           sync_env_lookup_none cfg settings _ (by decide)
             (hall _ (by decide) (by decide)),
           sync_env_lookup_none cfg settings _ (by decide)
             (hall _ (by decide) (by decide)),
           sync_env_lookup_none cfg settings _ (by decide)
             (hall _ (by decide) (by decide)),
           sync_env_lookup_none cfg settings _ (by decide)
             (hall _ (by decide) (by decide)),
           sync_env_lookup_none cfg settings _ (by decide)
             (hall _ (by decide) (by decide))⟩
  · intro hen
    exact ⟨sync_top_owned_none cfg settings _ (by decide) (by decide),
           sync_env_lookup_none cfg settings _ (by decide)
             (buildNewEnv_enabled_no_base_url cfg hen)⟩

/-- Concrete Vertex-enabled active configuration used by witnesses. -/
def cfgVW : ClaudeActiveConfig :=
  { site := "acme", site_url := "https://api.acme.test", site_description := none
    token_name := "primary", token := "sk-123"
    base_url := some "https://api.acme.test/v1", model := none
    vertex := { enabled := true, project_id := some "proj"
                base_url := some "https://vertex.test", skip_auth := true } }

/-- Concrete dirty settings document holding keys of both modes. -/
def dirtyW : List (String × Json) :=
  [("CLAUDE_CODE_USE_VERTEX", Json.str "1"),
   ("env", Json.obj
     [("ANTHROPIC_BASE_URL", Json.str "https://old.test"),
      ("CLAUDE_CODE_DISABLE_NONESSENTIAL_TRAFFIC", Json.str "1")])]

/-- Witness for C4 amended: on a dirty document, the vertex-disabled sync
clears the top-level `CLAUDE_CODE_USE_VERTEX` and the env
`CLAUDE_CODE_DISABLE_NONESSENTIAL_TRAFFIC`, and the vertex-enabled sync
clears `ANTHROPIC_BASE_URL` everywhere. -/
theorem mode_switch_cleanliness_witness :
    getKV (sync_to_settings cfgW dirtyW) "CLAUDE_CODE_USE_VERTEX" = none
    ∧ envLookup (sync_to_settings cfgW dirtyW)
        "CLAUDE_CODE_DISABLE_NONESSENTIAL_TRAFFIC" = none
    ∧ getKV (sync_to_settings cfgVW dirtyW) "ANTHROPIC_BASE_URL" = none
    ∧ envLookup (sync_to_settings cfgVW dirtyW) "ANTHROPIC_BASE_URL" = none :=
  ⟨((mode_switch_cleanliness cfgW dirtyW).1 rfl).1.1,
   ((mode_switch_cleanliness cfgW dirtyW).1 rfl).2.2.2.2.2,
   ((mode_switch_cleanliness cfgVW dirtyW).2 rfl).1,
   ((mode_switch_cleanliness cfgVW dirtyW).2 rfl).2⟩

/-- C1: resolving a stored active reference against a credential store
succeeds exactly when the store contains the cited site and that site's secret
map contains the cited secret name; otherwise resolution fails with an error
naming the missing site, or naming the missing secret together with its site,
never a silent default value. Stated for the Claude and Gemini resolvers, the
two instances cited by the claim. -/
theorem resolution_correct
    (store : ClaudeConfig) (ref : ClaudeActiveReference)
    (gstore : GeminiConfig) (gref : GeminiActiveReference) :
    ((∃ cfg, resolveClaude ref store = .ok cfg) ↔
      (∃ site, getKV store.sites ref.site = some site ∧
        (getKV site.tokens ref.token_name).isSome))
    ∧ (getKV store.sites ref.site = none →
        resolveClaude ref store = .error (siteNotFoundMsg ref.site))
    ∧ (∀ site, getKV store.sites ref.site = some site →
        getKV site.tokens ref.token_name = none →
        resolveClaude ref store = .error (tokenNotFoundMsg ref.token_name ref.site))
    ∧ ((∃ cfg, resolveGemini gref gstore = .ok cfg) ↔
      (∃ site, getKV gstore.sites gref.site = some site ∧
        (getKV site.api_keys gref.api_key_name).isSome))
    ∧ (getKV gstore.sites gref.site = none →
        resolveGemini gref gstore = .error (geminiSiteNotFoundMsg gref.site))
    ∧ (∀ site, getKV gstore.sites gref.site = some site →
        getKV site.api_keys gref.api_key_name = none →
        resolveGemini gref gstore = .error (apiKeyNotFoundMsg gref.api_key_name gref.site)) := by
  refine ⟨⟨?_, ?_⟩, resolveClaude_site_missing store ref,
    resolveClaude_token_missing store ref, ⟨?_, ?_⟩,
    resolveGemini_site_missing gstore gref, resolveGemini_key_missing gstore gref⟩
  · rintro ⟨cfg, hcfg⟩
    cases hs : getKV store.sites ref.site with
    | none => rw [resolveClaude_site_missing store ref hs] at hcfg; simp at hcfg
    | some site =>
      cases ht : getKV site.tokens ref.token_name with
      | none => rw [resolveClaude_token_missing store ref site hs ht] at hcfg; simp at hcfg
      | some tok => exact ⟨site, rfl, by simp [ht]⟩
  · rintro ⟨site, hs, ht⟩
    rcases Option.isSome_iff_exists.mp ht with ⟨tok, htok⟩
    exact ⟨_, resolveClaude_ok store ref site tok hs htok⟩
  · rintro ⟨cfg, hcfg⟩
    cases hs : getKV gstore.sites gref.site with
    | none => rw [resolveGemini_site_missing gstore gref hs] at hcfg; simp at hcfg
    | some site =>
      cases ht : getKV site.api_keys gref.api_key_name with
      | none => rw [resolveGemini_key_missing gstore gref site hs ht] at hcfg; simp at hcfg
      | some key => exact ⟨site, rfl, by simp [ht]⟩
  · rintro ⟨site, hs, ht⟩
    rcases Option.isSome_iff_exists.mp ht with ⟨key, hkey⟩
    exact ⟨_, resolveGemini_ok gstore gref site key hs hkey⟩

/-- Concrete Claude site used by witnesses: one stored token named main. -/
def siteW : ClaudeSite :=
  { metadata := { url := "https://api.acme.test", description := none
                  created_at := "t0", updated_at := "t0" }
    tokens := [("main", "sk-123")]
    config := ClaudeSiteConfig.default }

/-- Concrete Claude store used by witnesses: the single site acme. -/
def storeW : ClaudeConfig :=
  { version := "3.0.0", sites := [("acme", siteW)] }

/-- Witness for C1: on the empty store resolution fails naming the site; on a
store whose site acme lacks the token primary it fails naming the token and
the site. -/
theorem resolution_correct_witness :
    resolveClaude { site := "acme", token_name := "primary" } ClaudeConfig.new
      = .error (siteNotFoundMsg "acme")
    ∧ resolveClaude { site := "acme", token_name := "primary" } storeW
      = .error (tokenNotFoundMsg "primary" "acme") := by
  constructor
  · exact (resolution_correct ClaudeConfig.new { site := "acme", token_name := "primary" }
      GeminiConfig.new { site := "g", api_key_name := "k" }).2.1 rfl
  · exact (resolution_correct storeW { site := "acme", token_name := "primary" }
      GeminiConfig.new { site := "g", api_key_name := "k" }).2.2.1 siteW rfl rfl

/-- C7 counterexample: an existing credential-store document whose parse
fails makes `read_config` return the parse error itself, not the empty
default store the claim promises. -/
theorem read_config_no_recovery_counterexample :
    readClaudeConfig (some (Except.error "解析配置文件失败: expected value at line 1 column 1"))
      = Except.error "解析配置文件失败: expected value at line 1 column 1"
    ∧ readClaudeConfig (some (Except.error "解析配置文件失败: expected value at line 1 column 1"))
      ≠ Except.ok ClaudeConfig.new :=
  ⟨rfl, fun hc => Except.noConfusion hc⟩

/-- C7 amended: on every family's credential-store read, an absent file yields
the empty default store, while an existing file yields exactly the parse
outcome — a parse failure is surfaced as a hard read error, not recovered;
write-path errors likewise propagate. Stated for the Claude, Codex and Gemini
readers. -/
theorem read_config_default_only_when_absent :
    readClaudeConfig none = .ok ClaudeConfig.new
    ∧ (∀ r, readClaudeConfig (some r) = r)
    ∧ readCodexConfig none = .ok CodexConfig.new
    ∧ (∀ r, readCodexConfig (some r) = r)
    ∧ readGeminiConfig none = .ok GeminiConfig.new
    ∧ (∀ r, readGeminiConfig (some r) = r) :=
  ⟨rfl, fun _ => rfl, rfl, fun _ => rfl, rfl, fun _ => rfl⟩

/-- C6: for the three fully-owned output formats — the Codex
`config.toml` / `auth.json` pair, the Gemini `.env` file and the OpenCode
`opencode.json` — running the synchronizer twice in a row on the same Active
Configuration (and, for OpenCode, the same credential store) leaves the file
content of the second write identical to the first: the generators never read
the previous file content. -/
theorem fully_owned_sync_idempotent
    (ccfg : CodexActiveConfig) (gcfg : GeminiActiveConfig)
    (store : OpenCodeConfig) (ocfg : OpenCodeDualActive)
    (toml0 : String) (auth0 : Json) (env0 : String) (oc0 : Json) :
    codexSyncConfigToml ccfg (codexSyncConfigToml ccfg toml0)
      = codexSyncConfigToml ccfg toml0
    ∧ codexSyncAuthJson ccfg (codexSyncAuthJson ccfg auth0)
      = codexSyncAuthJson ccfg auth0
    ∧ geminiSyncEnvFile gcfg (geminiSyncEnvFile gcfg env0)
      = geminiSyncEnvFile gcfg env0
    ∧ syncToOpencodeFile store ocfg (syncToOpencodeFile store ocfg oc0)
      = syncToOpencodeFile store ocfg oc0 :=
  ⟨rfl, rfl, rfl, rfl⟩

theorem getKV_mainProviderPart_ne (store : OpenCodeConfig) (cfg : OpenCodeDualActive)
    (k : String) (h : k ≠ cfg.main.provider) :
    getKV (mainProviderPart store cfg) k = none := by
  unfold mainProviderPart
  cases hm : getKV store.providers cfg.main.provider with
  | none => rfl
  | some p =>
    rw [getKV_putKV_ne _ _ _ _ h]
    rfl

/-- C5: the `provider` object embedded into the generated `opencode.json`
holds at most the provider definitions named by the active `main` and `small`
roles — a stored provider referenced by neither role never appears — and when
both roles name the same provider its definition appears exactly once; the
generated document carries exactly this object under its `provider` key. -/
theorem opencode_secret_minimization (store : OpenCodeConfig) (cfg : OpenCodeDualActive) :
    (∀ k, k ≠ cfg.main.provider → k ≠ cfg.small.provider →
      getKV (buildProvidersMap store cfg) k = none)
    ∧ (∀ p, cfg.small.provider = cfg.main.provider →
        getKV store.providers cfg.main.provider = some p →
        countKV (buildProvidersMap store cfg) cfg.main.provider = 1)
    ∧ (∃ before after, syncToOpencodeContent store cfg
        = Json.obj (before ++ [("provider", Json.obj (buildProvidersMap store cfg))] ++ after)) := by
  refine ⟨?_, ?_, ?_⟩
  · intro k hmain hsmall
    unfold buildProvidersMap
    by_cases hneq : cfg.small.provider ≠ cfg.main.provider
    · rw [if_pos hneq]
      cases hs : getKV store.providers cfg.small.provider with
      | none => exact getKV_mainProviderPart_ne store cfg k hmain
      | some p =>
        rw [getKV_putKV_ne _ _ _ _ hsmall]
        exact getKV_mainProviderPart_ne store cfg k hmain
    · rw [if_neg hneq]
      exact getKV_mainProviderPart_ne store cfg k hmain
  · intro p hshared hm
    have hcond : ¬ (cfg.small.provider ≠ cfg.main.provider) := fun hc => hc hshared
    unfold buildProvidersMap
    rw [if_neg hcond]
    unfold mainProviderPart
    rw [hm]
    simp [putKV, getKV, countKV]
  · exact ⟨[("$schema", Json.str "https://opencode.ai/config.json"),
            ("theme", Json.str "tokyonight"),
            ("autoupdate", Json.bool false),
            ("model", Json.str (cfg.main.provider ++ "/" ++ cfg.main.model)),
            ("small_model", Json.str (cfg.small.provider ++ "/" ++ cfg.small.model))],
           [("tools", Json.obj
              [("get-current-session-id", Json.bool true), ("webfetch", Json.bool true)]),
            ("agent", Json.obj []),
            ("mcp", Json.obj [])], rfl⟩

/-- Concrete OpenCode store used by witnesses: two stored providers. -/
def ocStoreW : OpenCodeConfig :=
  { version := "3.0.0"
    providers :=
      [("alpha", { npm := none, name := "alpha"
                   options := { base_url := "https://a.test", api_key := "ka" }
                   models := [("m1", { name := "m1", limit := none })] }),
       ("beta", { npm := none, name := "beta"
                  options := { base_url := "https://b.test", api_key := "kb" }
                  models := [("m2", { name := "m2", limit := none })] })] }

/-- Witness for C5: with both roles on provider alpha, the stored provider
beta does not appear in the output and alpha appears exactly once. -/
theorem opencode_secret_minimization_witness :
    getKV (buildProvidersMap ocStoreW
      { main := { provider := "alpha", model := "m1" }
        small := { provider := "alpha", model := "m1" } }) "beta" = none
    ∧ countKV (buildProvidersMap ocStoreW
      { main := { provider := "alpha", model := "m1" }
        small := { provider := "alpha", model := "m1" } }) "alpha" = 1 :=
  ⟨(opencode_secret_minimization ocStoreW _).1 "beta" (by decide) (by decide),
   (opencode_secret_minimization ocStoreW _).2.1 _ rfl rfl⟩

theorem ne_empty_of_length_pos (s : String) (h : 0 < s.length) : s ≠ "" := by
  intro hc
  rw [hc] at h
  exact absurd h (by decide)

theorem pre_mid_post_length_pos (pre mid post : String) (h : 0 < pre.length) :
    0 < (pre ++ mid ++ post).length := by
  rw [String.length_append, String.length_append]
  omega

theorem pre_mid_length_pos (pre mid : String) (h : 0 < pre.length) :
    0 < (pre ++ mid).length := by
  rw [String.length_append]
  omega

theorem codexTopLines_not_blank (cfg : CodexActiveConfig) :
    ∀ l ∈ codexTopLines cfg, l ≠ "" := by
  intro l hl
  unfold codexTopLines at hl
  simp only [List.mem_append, List.mem_singleton] at hl
  rcases hl with (((h | h) | h) | h) | h
  · subst h
    exact ne_empty_of_length_pos _ (pre_mid_post_length_pos _ _ _ (by decide))
  · cases hm : cfg.model with
    | none => rw [hm] at h; cases h
    | some m =>
      rw [hm] at h
      rcases List.mem_singleton.mp h with rfl
      exact ne_empty_of_length_pos _ (pre_mid_post_length_pos _ _ _ (by decide))
  · cases hm : cfg.model_reasoning_effort with
    | none => rw [hm] at h; cases h
    | some re =>
      rw [hm] at h
      rcases List.mem_singleton.mp h with rfl
      exact ne_empty_of_length_pos _ (pre_mid_post_length_pos _ _ _ (by decide))
  · cases hm : cfg.network_access with
    | none => rw [hm] at h; cases h
    | some na =>
      rw [hm] at h
      rcases List.mem_singleton.mp h with rfl
      exact ne_empty_of_length_pos _ (pre_mid_post_length_pos _ _ _ (by decide))
  · cases hm : cfg.disable_response_storage with
    | none => rw [hm] at h; cases h
    | some b =>
      rw [hm] at h
      rcases List.mem_singleton.mp h with rfl
      exact ne_empty_of_length_pos _ (pre_mid_length_pos _ _ (by decide))

theorem codexSectionLines_not_blank (cfg : CodexActiveConfig) :
    ∀ l ∈ codexSectionLines cfg, l ≠ "" := by
  intro l hl
  unfold codexSectionLines at hl
  simp only [List.mem_append, List.mem_singleton, List.mem_cons,
    List.not_mem_nil, or_false] at hl
  rcases hl with (((h | h) | h) | h) | h
  · subst h
    exact ne_empty_of_length_pos _ (pre_mid_post_length_pos _ _ _ (by decide))
  · subst h
    exact ne_empty_of_length_pos _ (pre_mid_post_length_pos _ _ _ (by decide))
  · cases hm : cfg.base_url with
    | none => rw [hm] at h; cases h
    | some bu =>
      rw [hm] at h
      rcases List.mem_singleton.mp h with rfl
      exact ne_empty_of_length_pos _ (pre_mid_post_length_pos _ _ _ (by decide))
  · cases hm : cfg.wire_api with
    | none => rw [hm] at h; cases h
    | some wa =>
      rw [hm] at h
      rcases List.mem_singleton.mp h with rfl
      exact ne_empty_of_length_pos _ (pre_mid_post_length_pos _ _ _ (by decide))
  · subst h
    exact ne_empty_of_length_pos _ (by decide)

/-- C8: the `config.toml` content written for Codex is a function of the
Active Configuration alone — any previous file content is ignored — its lines
are the top-level scalar settings, a single blank separator line, then the
bracketed `[model_providers.<id>]` section (no other line is blank), and the
provider identifier equals `model_provider` when set, defaulting to the site
name otherwise. -/
theorem codex_full_ownership (cfg : CodexActiveConfig) (prev1 prev2 : String) :
    codexSyncConfigToml cfg prev1 = codexSyncConfigToml cfg prev2
    ∧ codexSyncConfigToml cfg prev1
        = String.intercalate "\n" (codexTopLines cfg ++ [""] ++ codexSectionLines cfg) ++ "\n"
    ∧ (∀ l ∈ codexTopLines cfg, l ≠ "")
    ∧ (∀ l ∈ codexSectionLines cfg, l ≠ "")
    ∧ (codexTopLines cfg).head?
        = some ("model_provider = \"" ++ codexProviderName cfg ++ "\"")
    ∧ (codexSectionLines cfg).head?
        = some ("[model_providers." ++ codexProviderName cfg ++ "]")
    ∧ codexProviderName cfg = cfg.model_provider.getD cfg.site :=
  ⟨rfl, rfl, codexTopLines_not_blank cfg, codexSectionLines_not_blank cfg,
   rfl, rfl, rfl⟩

/-- Concrete Codex active configuration used by witnesses: no explicit
`model_provider`, so the identifier falls back to the site name. -/
def codexCfgW : CodexActiveConfig :=
  { site := "acme", site_url := "https://api.acme.test", site_description := none
    api_key_name := "main", api_key := "sk-9"
    base_url := some "https://api.acme.test/v1", model := some "gpt-5"
    model_reasoning_effort := none, model_provider := none
    network_access := none, disable_response_storage := none, wire_api := some "responses" }

/-- Witness for C8: on a concrete configuration, the blank-line check holds
for a specific line and the section header uses the site name as identifier. -/
theorem codex_full_ownership_witness :
    ("model = \"gpt-5\"" : String) ≠ ""
    ∧ (codexSectionLines codexCfgW).head? = some "[model_providers.acme]" :=
  ⟨(codex_full_ownership codexCfgW "" "x").2.2.1 "model = \"gpt-5\"" (by
      simp [codexTopLines, codexCfgW, codexProviderName]),
   (codex_full_ownership codexCfgW "" "x").2.2.2.2.2.1⟩

/-- C2: round trip through switch and get_active: starting from any state in
which the site name is free, adding the site with a URL, adding a named
secret, and switching to that pair succeeds, and a subsequent get_active
returns Some configuration whose dereferenced secret equals the stored value
and whose site URL equals the stored URL. -/
theorem switch_get_active_round_trip (st0 : ClaudeMgrState)
    (name url tn tok : String) (desc : Option String) (t1 t2 : String)
    (h : getKV st0.store.sites name = none) :
    ∃ st1 st2 st3 cfg,
      mgrAddSite st0 name url desc t1 = .ok st1
      ∧ mgrAddToken st1 name tn tok t2 = .ok st2
      ∧ switchClaude st2 name tn = .ok st3
      ∧ getActiveClaude st3 = .ok (some cfg)
      ∧ cfg.token = tok
      ∧ cfg.site_url = url := by
  have hnone : (getKV st0.store.sites name).isSome = false := by rw [h]; rfl
  set site0 := ClaudeSite.new url desc t1 with hsite0
  set site1 := ClaudeSite.addToken site0 tn tok t2 with hsite1
  set st1 : ClaudeMgrState :=
    { st0 with store := { st0.store with
        sites := putKV st0.store.sites name site0 } } with hst1
  set st2 : ClaudeMgrState :=
    { st1 with store := { st1.store with
        sites := setKV st1.store.sites name site1 } } with hst2
  set stA : ClaudeMgrState :=
    { st2 with active := some { site := name, token_name := tn } } with hstA
  set cfgval : ClaudeActiveConfig :=
    { site := name, site_url := site1.metadata.url
      site_description := site1.metadata.description
      token_name := tn, token := tok
      base_url := site1.config.base_url, model := site1.config.model
      vertex := site1.config.vertex } with hcfgval
  set st3 : ClaudeMgrState :=
    { stA with settings := sync_to_settings cfgval stA.settings } with hst3
  have h1 : mgrAddSite st0 name url desc t1 = .ok st1 := by
    simp only [mgrAddSite, hnone, Bool.false_eq_true, if_false]
  have hg1 : getKV st1.store.sites name = some site0 :=
    getKV_putKV_self st0.store.sites name site0
  have hg1s : (getKV st1.store.sites name).isSome = true := by rw [hg1]; rfl
  have htok0 : getKV site0.tokens tn = none := rfl
  have h2 : mgrAddToken st1 name tn tok t2 = .ok st2 := by
    simp only [mgrAddToken, hg1, htok0, Option.isSome_none, Bool.false_eq_true, if_false]
  have hg2 : getKV st2.store.sites name = some site1 :=
    getKV_setKV_self st1.store.sites name site1 hg1s
  have htok1 : getKV site1.tokens tn = some tok := getKV_putKV_self site0.tokens tn tok
  have hres : resolveClaude { site := name, token_name := tn } st2.store = .ok cfgval :=
    resolveClaude_ok st2.store _ site1 tok hg2 htok1
  have hga : getActiveClaude stA = .ok (some cfgval) := by
    have hred : getActiveClaude stA
        = (match resolveClaude { site := name, token_name := tn } stA.store with
           | Except.error e => Except.error e
           | Except.ok cfg => Except.ok (some cfg)) := rfl
    rw [hred, show resolveClaude { site := name, token_name := tn } stA.store
        = Except.ok cfgval from hres]
  have h3 : switchClaude st2 name tn = .ok st3 := by
    unfold switchClaude
    simp only [hg2, htok1, Option.isSome_some, if_true]
    rw [← hstA, hga]
  have hget3 : getActiveClaude st3 = .ok (some cfgval) := by
    have hred : getActiveClaude st3
        = (match resolveClaude { site := name, token_name := tn } st3.store with
           | Except.error e => Except.error e
           | Except.ok cfg => Except.ok (some cfg)) := rfl
    rw [hred, show resolveClaude { site := name, token_name := tn } st3.store
        = Except.ok cfgval from hres]
  exact ⟨st1, st2, st3, cfgval, h1, h2, h3, hget3, rfl, rfl⟩

/-- Witness for C2: Scenario A on the empty initial state, with the concrete
site acme, URL, secret primary and value sk-123. -/
theorem switch_get_active_round_trip_witness :
    getKV (ClaudeMgrState.mk ClaudeConfig.new none []).store.sites "acme" = none
    ∧ ∃ st1 st2 st3 cfg,
      mgrAddSite (ClaudeMgrState.mk ClaudeConfig.new none [])
        "acme" "https://api.acme.test" none "t1" = .ok st1
      ∧ mgrAddToken st1 "acme" "primary" "sk-123" "t2" = .ok st2
      ∧ switchClaude st2 "acme" "primary" = .ok st3
      ∧ getActiveClaude st3 = .ok (some cfg)
      ∧ cfg.token = "sk-123"
      ∧ cfg.site_url = "https://api.acme.test" :=
  ⟨rfl, switch_get_active_round_trip (ClaudeMgrState.mk ClaudeConfig.new none [])
    "acme" "https://api.acme.test" "primary" "sk-123" none "t1" "t2" rfl⟩

theorem getActiveClaude_resolve (st : ClaudeMgrState) (ref : ClaudeActiveReference)
    (h : st.active = some ref) :
    getActiveClaude st = (match resolveClaude ref st.store with
      | Except.error e => Except.error e
      | Except.ok cfg => Except.ok (some cfg)) := by
  unfold getActiveClaude
  rw [h]

theorem getActiveClaude_resolve_error (st : ClaudeMgrState) (ref : ClaudeActiveReference)
    (e : String) (h : st.active = some ref)
    (hres : resolveClaude ref st.store = .error e) :
    getActiveClaude st = .error e := by
  rw [getActiveClaude_resolve st ref h, hres]

/-- C9: successfully removing the secret (respectively the site) cited by the
stored active reference leaves the global active slot unchanged, and a
subsequent get_active fails with the secret-not-found (respectively
site-not-found) error, rather than returning None or silently clearing the
reference. -/
theorem dangling_reference_lazy (st : ClaudeMgrState) (s n now : String)
    (site : ClaudeSite) (v : String)
    (href : st.active = some { site := s, token_name := n })
    (hs : getKV st.store.sites s = some site)
    (ht : getKV site.tokens n = some v) :
    (∃ st1, mgrRemoveToken st s n now = .ok st1
      ∧ st1.active = st.active
      ∧ getActiveClaude st1 = .error (tokenNotFoundMsg n s))
    ∧ (∃ st2, mgrRemoveSite st s = .ok st2
      ∧ st2.active = st.active
      ∧ getActiveClaude st2 = .error (siteNotFoundMsg s)) := by
  have hsome : (getKV st.store.sites s).isSome = true := by rw [hs]; rfl
  constructor
  · set site1 := ClaudeSite.removeToken site n now with hsite1
    set st1 : ClaudeMgrState :=
      { st with store := { st.store with sites := setKV st.store.sites s site1 } } with hst1
    have hr : mgrRemoveToken st s n now = .ok st1 := by
      simp only [mgrRemoveToken, hs, ht]
    have hg : getKV st1.store.sites s = some site1 :=
      getKV_setKV_self st.store.sites s site1 hsome
    have hrm : site1 = { site with
        tokens := removeKV site.tokens n,
        metadata := { site.metadata with updated_at := now } } := by
      rw [hsite1]
      unfold ClaudeSite.removeToken
      simp [ht]
    have htok1 : getKV site1.tokens n = none := by
      rw [hrm]
      exact getKV_removeKV_self site.tokens n
    have hres1 : resolveClaude { site := s, token_name := n } st1.store
        = .error (tokenNotFoundMsg n s) :=
      resolveClaude_token_missing st1.store { site := s, token_name := n } site1 hg htok1
    exact ⟨st1, hr, rfl, getActiveClaude_resolve_error st1 _ _ href hres1⟩
  · set st2 : ClaudeMgrState :=
      { st with store := { st.store with sites := removeKV st.store.sites s } } with hst2
    have hr : mgrRemoveSite st s = .ok st2 := by
      simp [mgrRemoveSite, hsome]
    have hg : getKV st2.store.sites s = none := getKV_removeKV_self st.store.sites s
    have hres2 : resolveClaude { site := s, token_name := n } st2.store
        = .error (siteNotFoundMsg s) :=
      resolveClaude_site_missing st2.store { site := s, token_name := n } hg
    exact ⟨st2, hr, rfl, getActiveClaude_resolve_error st2 _ _ href hres2⟩

/-- Concrete manager state for witnesses: store with site acme holding token
main, and an active reference citing exactly that pair. -/
def stW9 : ClaudeMgrState :=
  { store := storeW
    active := some { site := "acme", token_name := "main" }
    settings := [] }

/-- Witness for C9: on the concrete state, removing the cited token (or the
cited site) keeps the active slot and makes get_active fail with the matching
not-found error. -/
theorem dangling_reference_lazy_witness :
    (∃ st1, mgrRemoveToken stW9 "acme" "main" "t9" = .ok st1
      ∧ st1.active = stW9.active
      ∧ getActiveClaude st1 = .error (tokenNotFoundMsg "main" "acme"))
    ∧ (∃ st2, mgrRemoveSite stW9 "acme" = .ok st2
      ∧ st2.active = stW9.active
      ∧ getActiveClaude st2 = .error (siteNotFoundMsg "acme")) :=
  dangling_reference_lazy stW9 "acme" "main" "t9" siteW "sk-123" rfl rfl rfl

/-- C10: `has_any_config` returns true exactly when the Claude active slot is
set; whenever the Claude slot is `None` it returns false even if the Codex,
Gemini or OpenCode slots are set. -/
theorem has_any_config_claude_only (active : ActiveConfigs) :
    (hasAnyConfig active = true ↔ ∃ r, active.claude = some r)
    ∧ (active.claude = none → hasAnyConfig active = false) := by
  constructor
  · cases h : active.claude <;> simp [hasAnyConfig, h]
  · intro h
    simp [hasAnyConfig, h]

/-- Witness for C10: with the Codex, Gemini and OpenCode slots all set but the
Claude slot empty, `has_any_config` reports false. -/
theorem has_any_config_claude_only_witness :
    hasAnyConfig
      { claude := none
        codex := some { site := "c", api_key_name := "k" }
        gemini := some { site := "g", api_key_name := "k" }
        opencode := some
          { main := { provider := "p", model := "m" }
            small := { provider := "p", model := "m" } } } = false :=
  (has_any_config_claude_only _).2 rfl

end CaSwitch
